import Mathlib

/-!
Verification development for the wol-service repository (a Wake-on-LAN HTTP
service).  The definitions below are a shallow embedding of the JavaScript
source: `sendCustomMagicPacket` and the `POST /wakeup` handler of the main
server file, and the `POST /wakeup` handler of `src/index.js`.

Modelling conventions:
* JavaScript values that may be `undefined` become `Option _`.  JavaScript
  falsiness of strings (`''` is falsy) and numbers (`0` is falsy) is modelled
  explicitly in the `strOr` / `strOrD` / `strOrNull` / `numOr` helpers, which
  embed the `a || b` idioms of the source.
* Byte buffers become `List Nat` (each entry intended `< 256`).
* One send attempt is modelled as the ordered list of observable events
  (`Ev`) that the Node.js runtime produces for the code of
  `sendCustomMagicPacket`, together with the attempt outcome (the promise
  settling).  External effects that can fail (socket bind, datagram send)
  are driven by a `TransportBeh` oracle supplied as an argument.
* Node.js `dgram` semantics used by the event model: `socket.bind` completes
  asynchronously (its callback and the `listening` event fire only after the
  current synchronous block has finished); a `socket.send` issued while the
  bind is pending is queued and the datagram is transmitted only after the
  `listening` listeners (registered earlier, here the one calling
  `setBroadcast(true)`) have run; a promise settled by `resolve`/`reject`
  delivers its value to the awaiting caller only at the next microtask
  checkpoint, i.e. after the remaining synchronous statements (such as
  `socket.close()`) have executed.  If the bind fails, the `error` handler
  runs and the queued datagram is never transmitted.
-/

namespace WolService

/- ## Hardware address parsing and magic-packet construction
   (from `sendCustomMagicPacket`) -/

/-- Numeric value of a hexadecimal digit, as produced by the source's
`parseInt(_, 16)` on one digit (`0`-`9`, `A`-`F`, `a`-`f`, by character
code).  Only ever applied, under the validation guard, to characters that
are hexadecimal digits; other characters get the junk value 0 (the source
would produce `NaN` there, but that path is unreachable past validation). -/
def hexVal (c : Char) : Nat :=
  if 48 ≤ c.toNat ∧ c.toNat ≤ 57 then c.toNat - 48
  else if 65 ≤ c.toNat ∧ c.toNat ≤ 70 then c.toNat - 55
  else if 97 ≤ c.toNat ∧ c.toNat ≤ 102 then c.toNat - 87
  else 0

/-- One character is a hexadecimal digit, as matched by the source's
regular expression `/^[0-9A-F]{12}$/i` (case-insensitive, so codes for
`0-9`, `A-F` and `a-f`). -/
def isHexDigit (c : Char) : Bool :=
  decide ((48 ≤ c.toNat ∧ c.toNat ≤ 57) ∨ (65 ≤ c.toNat ∧ c.toNat ≤ 70) ∨
    (97 ≤ c.toNat ∧ c.toNat ≤ 102))

/-- The source's `mac.replace(/[:-]/g, '')`: remove every `':'` and `'-'`
character. -/
def stripSep (cs : List Char) : List Char :=
  cs.filter (fun c => !(c == ':' || c == '-'))

/-- The source's validation
`macAddress.length !== 12 || !/^[0-9A-F]{12}$/i.test(macAddress)`,
phrased positively: exactly 12 characters, all hexadecimal digits. -/
def validMac (cs : List Char) : Bool :=
  (cs.length == 12) && cs.all isHexDigit

/-- The `j`-th decoded byte of the (separator-stripped) address:
`parseInt(macAddress.substring(j * 2, j * 2 + 2), 16)` — high nibble
first. -/
def macByte (cs : List Char) (j : Nat) : Nat :=
  hexVal (cs.getD (2 * j) '0') * 16 + hexVal (cs.getD (2 * j + 1) '0')

/-- The six decoded address bytes. -/
def macBytes (cs : List Char) : List Nat :=
  (List.range 6).map (macByte cs)

/-- The magic-packet buffer, built exactly as the source does:
`Buffer.alloc(102)` (zero-filled), then `magicPacket[i] = 0xFF` for
`i = 0..5`, then `magicPacket[6 + i * 6 + j] = parseInt(...)` for
`i = 0..15`, `j = 0..5`. -/
def buildPacket (cs : List Char) : List Nat :=
  let buf0 := List.replicate 102 0
  let buf1 := (List.range 6).foldl (fun b i => b.set i 0xFF) buf0
  (List.range 16).foldl
    (fun b i => (List.range 6).foldl
      (fun b2 j => b2.set (6 + i * 6 + j) (macByte cs j)) b)
    buf1

/- ## Generic lemma kit for sequences of array stores
   (used to characterise the buffer-filling loops) -/

/-- Run a list of stores `index ↦ value` on a buffer, left to right. -/
def writeList (ps : List (Nat × Nat)) (b : List Nat) : List Nat :=
  ps.foldl (fun b p => b.set p.1 p.2) b

/-- The store list writing the values `vs` at consecutive indices starting
at `k`. -/
def seqPairs : Nat → List Nat → List (Nat × Nat)
  | _, [] => []
  | k, v :: vs => (k, v) :: seqPairs (k + 1) vs


end WolService

namespace WolService

/- ## Options of a send attempt -/

/-- The options object passed to `sendCustomMagicPacket` / `wol.wake`
(fields may be absent, `interface` is called `iface` here because the
source destructures it under another name as well). -/
structure WakeOptions where
  address : Option String
  port : Option Nat
  iface : Option String
  deriving DecidableEq

/-- Options after the defaulting at the top of `sendCustomMagicPacket`. -/
structure ResolvedOptions where
  address : String
  port : Nat
  iface : Option String
  deriving DecidableEq

/-- JavaScript `a || d` for a possibly-undefined string `a` and a string
default `d` (`undefined` and `''` are falsy). -/
def strOrD (a : Option String) (d : String) : String :=
  match a with
  | some s => if s.isEmpty then d else s
  | none => d

/-- JavaScript `a || null` for a possibly-undefined string `a`. -/
def strOrNull (a : Option String) : Option String :=
  match a with
  | some s => if s.isEmpty then none else some s
  | none => none

/-- JavaScript `a || d` for a possibly-undefined number `a` and a numeric
default `d` (`undefined` and `0` are falsy; we model ports as `Nat`). -/
def numOr (a : Option Nat) (d : Nat) : Nat :=
  match a with
  | some n => if n == 0 then d else n
  | none => d

/-- JavaScript `a || b` for two possibly-undefined strings, collapsed to
`none` exactly when the result is falsy (i.e. when a subsequent `if (!x)`
guard would fire); otherwise `some` of the string the source would use. -/
def strOr (a b : Option String) : Option String :=
  match a with
  | some s => if s.isEmpty then strOrNull b else some s
  | none => strOrNull b

/-- The option defaulting of `sendCustomMagicPacket`:
`address: options.address || '255.255.255.255'`,
`port: options.port || 9`, `interface: options.interface || null`. -/
def resolveOptions (o : WakeOptions) : ResolvedOptions :=
  ⟨strOrD o.address "255.255.255.255", numOr o.port 9, strOrNull o.iface⟩

/-- The per-interface option derivation of the `useAllInterfaces` loop:
`{ ...options, interface: iface.address }` — spread copies `address` and
`port` unchanged and overrides the `interface` binder. -/
def interfaceOptions (o : WakeOptions) (addr : String) : WakeOptions :=
  ⟨o.address, o.port, some addr⟩

/- ## Events and the single send attempt -/

/-- Outcome of one `sendCustomMagicPacket` promise. -/
inductive SendOutcome where
  | resolved
  | rejected (msg : String)
  deriving DecidableEq

/-- Observable events of one send attempt, in the order the Node.js
runtime produces them (see the module comment for the `dgram` /
microtask ordering). -/
inductive Ev where
  /-- `dgram.createSocket('udp4')` -/
  | create
  /-- `socket.bind(bindOptions, ...)` initiated, with the bind address. -/
  | bindStart (iface : Option String)
  /-- the MAC-format validation check runs, with its result. -/
  | validate (ok : Bool)
  /-- the 102-byte packet is constructed. -/
  | build (pkt : List Nat)
  /-- `socket.send(...)` is invoked (datagram queued, bind still pending). -/
  | sendCall (pkt : List Nat) (port : Nat) (addr : String)
  /-- the bind completes and the `listening` event fires. -/
  | bindDone
  /-- the bind fails and the `error` handler runs. -/
  | bindError (msg : String)
  /-- `socket.setBroadcast(b)` executes. -/
  | setBroadcast (b : Bool)
  /-- the queued datagram is transmitted on the wire. -/
  | send (pkt : List Nat) (port : Nat) (addr : String)
  /-- `resolve()` / `reject(err)` executes (the promise settles). -/
  | settle (o : SendOutcome)
  /-- `socket.close()` executes. -/
  | close
  /-- the settled value is delivered to the awaiting caller (microtask). -/
  | deliver
  /-- `wol.wake(mac, options, cb)` — the library send attempt. -/
  | libWake (mac : String) (addr : String) (port : Nat)
  deriving DecidableEq

/-- Behaviour oracle for the externally-determined effects of one
attempt: whether the bind succeeds and whether the datagram send
succeeds, with the error messages carried by the corresponding
`Error` objects. -/
structure TransportBeh where
  bindOk : Bool
  bindErr : String
  sendOk : Bool
  sendErr : String
  deriving DecidableEq

/-- One run of `sendCustomMagicPacket(mac, options)`: the ordered event
trace and the promise outcome.  Trace order follows the source plus the
Node.js `dgram`/microtask semantics summarised in the module comment:
the synchronous block is create, bind-start, validate, (on success)
build and the `socket.send` call; the bind then completes or fails
asynchronously; on completion the bind callback runs
`setBroadcast(true)` and the queued datagram goes out, after which the
send callback settles the promise and closes the socket; on bind
failure the `error` handler settles (rejects) and closes.  On a
validation failure the source rejects, closes and returns before
building anything.  Delivery of the settled promise to the caller
(`deliver`) is always the final event of the attempt. -/
def sendCustomMagicPacket (mac : String) (options : WakeOptions)
    (beh : TransportBeh) : List Ev × SendOutcome :=
  let opts := resolveOptions options
  let cs := stripSep mac.toList
  if validMac cs then
    let pkt := buildPacket cs
    let syncPart := [Ev.create, Ev.bindStart opts.iface, Ev.validate true,
      Ev.build pkt, Ev.sendCall pkt opts.port opts.address]
    if beh.bindOk then
      (syncPart ++ [Ev.bindDone, Ev.setBroadcast true, Ev.send pkt opts.port opts.address,
        Ev.settle (if beh.sendOk then SendOutcome.resolved else SendOutcome.rejected beh.sendErr),
        Ev.close, Ev.deliver],
       if beh.sendOk then SendOutcome.resolved else SendOutcome.rejected beh.sendErr)
    else
      (syncPart ++ [Ev.bindError beh.bindErr,
        Ev.settle (SendOutcome.rejected beh.bindErr), Ev.close, Ev.deliver],
       SendOutcome.rejected beh.bindErr)
  else
    ([Ev.create, Ev.bindStart opts.iface, Ev.validate false,
      Ev.settle (SendOutcome.rejected "Invalid MAC address format"), Ev.close, Ev.deliver],
     SendOutcome.rejected "Invalid MAC address format")

end WolService

namespace WolService

/- ## Trace scanners for the temporal claims -/

/-- Scanner for the broadcast-before-send discipline: walking the trace
while tracking the socket's broadcast flag (initially disabled), every
datagram transmission must happen while the flag is enabled. -/
def sendsWithBroadcastEnabled : Bool → List Ev → Bool
  | _, [] => true
  | _, Ev.setBroadcast b :: rest => sendsWithBroadcastEnabled b rest
  | enabled, Ev.send _ _ _ :: rest => enabled && sendsWithBroadcastEnabled enabled rest
  | enabled, _ :: rest => sendsWithBroadcastEnabled enabled rest

/-- Scanner for the close-before-delivery discipline: walking the trace
while tracking whether `socket.close()` has executed, every delivery of
the attempt result must happen after the socket was closed. -/
def closedBeforeDeliver : Bool → List Ev → Bool
  | _, [] => true
  | _, Ev.close :: rest => closedBeforeDeliver true rest
  | closed, Ev.deliver :: rest => closed && closedBeforeDeliver closed rest
  | closed, _ :: rest => closedBeforeDeliver closed rest

/- ## Network interfaces and the multi-interface dispatch
   (the `useAllInterfaces` branch of the `/wakeup` handler) -/

/-- One entry of `os.networkInterfaces()` for a named interface (the
fields the source reads). -/
structure IfaceEntry where
  address : String
  family : String
  internal : Bool
  deriving DecidableEq

/-- The interface entries the dispatch loop selects: iterating
`Object.entries(networkInterfaces)` and each entry list in order,
keeping those with `iface.family === 'IPv4' && !iface.internal`,
paired with their interface name. -/
def qualifyingInterfaces (nis : List (String × List IfaceEntry)) :
    List (String × IfaceEntry) :=
  nis.flatMap (fun p =>
    (p.2.filter (fun i => i.family == "IPv4" && !i.internal)).map (fun i => (p.1, i)))

/-- One per-interface entry of the aggregated report: the success branch
produces `{ interface: name, address, success: true }`, the catch branch
`{ interface: name, address, success: false, error: err.message }`. -/
structure AttemptResult where
  iface : String
  address : String
  success : Bool
  error : Option String
  deriving DecidableEq

/-- The report entry for one qualifying interface: run
`sendCustomMagicPacket(mac, { ...options, interface: iface.address })`
and map the settled outcome through the attached `.then`/`.catch`. -/
def attemptResultFor (mac : String) (options : WakeOptions)
    (e : String × IfaceEntry) (beh : TransportBeh) : AttemptResult :=
  match (sendCustomMagicPacket mac (interfaceOptions options e.2.address) beh).2 with
  | SendOutcome.resolved => ⟨e.1, e.2.address, true, none⟩
  | SendOutcome.rejected m => ⟨e.1, e.2.address, false, some m⟩

/-- The dispatch loop over the qualifying interfaces, carrying the
position of each attempt so that every attempt gets its own transport
behaviour; returns the `Promise.all` result list and the concatenation
of the per-attempt event traces (adequate for membership properties;
real attempts may interleave). -/
def sendToAllInterfacesAux (mac : String) (options : WakeOptions)
    (beh : Nat → TransportBeh) :
    Nat → List (String × IfaceEntry) → List AttemptResult × List Ev
  | _, [] => ([], [])
  | k, e :: es =>
    let r := sendCustomMagicPacket mac (interfaceOptions options e.2.address) (beh k)
    let rest := sendToAllInterfacesAux mac options beh (k + 1) es
    (attemptResultFor mac options e (beh k) :: rest.1, r.1 ++ rest.2)

/-- The `useAllInterfaces` branch: enumerate, select, fan out, await all. -/
def sendToAllInterfaces (mac : String) (options : WakeOptions)
    (nis : List (String × List IfaceEntry)) (beh : Nat → TransportBeh) :
    List AttemptResult :=
  (sendToAllInterfacesAux mac options beh 0 (qualifyingInterfaces nis)).1

/-- Event trace of the `useAllInterfaces` branch. -/
def sendToAllInterfacesTrace (mac : String) (options : WakeOptions)
    (nis : List (String × List IfaceEntry)) (beh : Nat → TransportBeh) :
    List Ev :=
  (sendToAllInterfacesAux mac options beh 0 (qualifyingInterfaces nis)).2

end WolService

namespace WolService

/- ## The `POST /wakeup` handler of the main server -/

/-- Outcome record of one sender (`{ success: true }` or
`{ success: false, error }`). -/
structure SendResult where
  success : Bool
  error : Option String
  deriving DecidableEq

/-- The `results.custom` slot: a single-attempt object or, in the
`useAllInterfaces` case, the array of per-interface results. -/
inductive CustomOutcome where
  | single (r : SendResult)
  | multi (rs : List AttemptResult)
  deriving DecidableEq

/-- The `results` record of the handler (`library: null, custom: null`
initially; `none` models a slot left `null`). -/
structure WakeResults where
  library : Option SendResult
  custom : Option CustomOutcome
  deriving DecidableEq

/-- The handler's aggregation expression, truthiness included:
`(results.library && results.library.success) || (results.custom &&
(Array.isArray(results.custom) ? results.custom.some(r => r.success)
: results.custom.success))`. -/
def anySuccess (r : WakeResults) : Bool :=
  (match r.library with
   | some l => l.success
   | none => false) ||
  (match r.custom with
   | some (CustomOutcome.single s) => s.success
   | some (CustomOutcome.multi rs) => rs.any (fun a => a.success)
   | none => false)

/-- The JSON body of a `POST /wakeup` request, with the fields the test
page sends; the handler destructures only the first five
(`broadcastAddr` is present on the wire but never destructured). -/
structure ReqBody where
  macAddress : Option String
  port : Option Nat
  iface : Option String
  method : Option String
  useAllInterfaces : Bool
  broadcastAddr : Option String
  deriving DecidableEq

/-- The environment variables the handler reads. -/
structure Env where
  serverMac : Option String
  wolBroadcastAddr : Option String
  deriving DecidableEq

/-- The HTTP response the handler produces (status code, `success` flag,
`message`, and the `details` payload when present). -/
structure Response where
  status : Nat
  success : Bool
  message : String
  details : Option WakeResults
  deriving DecidableEq

/-- The source's `!method || method === 'library' || method === 'both'`. -/
def runLibrary (m : Option String) : Bool :=
  match m with
  | none => true
  | some s => s.isEmpty || s == "library" || s == "both"

/-- The source's `!method || method === 'custom' || method === 'both'`. -/
def runCustom (m : Option String) : Bool :=
  match m with
  | none => true
  | some s => s.isEmpty || s == "custom" || s == "both"

/-- Result of the library attempt: the callback sets
`{ success: true }` on success; on error both the callback and the
enclosing catch set `{ success: false, error: error.message }`. -/
def libResult (libBeh : Option String) : SendResult :=
  match libBeh with
  | none => ⟨true, none⟩
  | some m => ⟨false, some m⟩

/-- Result of the single (non-fan-out) custom attempt: `await` resolving
gives `{ success: true }`; rejection is caught and gives
`{ success: false, error: error.message }`. -/
def outcomeToResult (o : SendOutcome) : SendResult :=
  match o with
  | SendOutcome.resolved => ⟨true, none⟩
  | SendOutcome.rejected m => ⟨false, some m⟩

/-- The options object the handler builds: destination from
`WOL_BROADCAST_ADDR` (default `255.255.255.255`), port from the body
(default 9), and the `interface` binder when a truthy one is supplied. -/
def handlerOptions (env : Env) (body : ReqBody) : WakeOptions :=
  ⟨some (strOrD env.wolBroadcastAddr "255.255.255.255"),
   some (numOr body.port 9), strOrNull body.iface⟩

/-- The work of the `/wakeup` handler once the effective address `mac`
is resolved: build the options, run the library attempt and/or the
custom attempt (single or fan-out), and collect the `results` record
plus the event trace.  Behaviour oracles: `libBeh`: `none` = the
library send succeeds, `some m` = it fails with message `m`;
`singleBeh` drives the single custom attempt; `multiBeh` drives the
per-interface attempts. -/
def wakeupResults (env : Env) (body : ReqBody)
    (nis : List (String × List IfaceEntry)) (libBeh : Option String)
    (singleBeh : TransportBeh) (multiBeh : Nat → TransportBeh) (mac : String) :
    WakeResults × List Ev :=
  let broadcastAddr := strOrD env.wolBroadcastAddr "255.255.255.255"
  let wolPort := numOr body.port 9
  let options : WakeOptions := handlerOptions env body
  let libPart : Option SendResult × List Ev :=
    if runLibrary body.method then
      (some (libResult libBeh), [Ev.libWake mac broadcastAddr wolPort])
    else (none, [])
  let custPart : Option CustomOutcome × List Ev :=
    if runCustom body.method then
      if body.useAllInterfaces then
        (some (CustomOutcome.multi (sendToAllInterfaces mac options nis multiBeh)),
         sendToAllInterfacesTrace mac options nis multiBeh)
      else
        let r := sendCustomMagicPacket mac options singleBeh
        (some (CustomOutcome.single (outcomeToResult r.2)), r.1)
    else (none, [])
  (⟨libPart.1, custPart.1⟩, libPart.2 ++ custPart.2)

/-- The `POST /wakeup` handler of the main server: the missing-address
guard (400), then the attempts of `wakeupResults`, then the final
aggregation mapping (200 on any success, 500 on total failure).
Returns the response and the event trace of everything the handler
did. -/
def wakeupHandler (env : Env) (body : ReqBody)
    (nis : List (String × List IfaceEntry)) (libBeh : Option String)
    (singleBeh : TransportBeh) (multiBeh : Nat → TransportBeh) :
    Response × List Ev :=
  match strOr body.macAddress env.serverMac with
  | none => (⟨400, false, "MAC address not provided", none⟩, [])
  | some mac =>
    let rt := wakeupResults env body nis libBeh singleBeh multiBeh mac
    if anySuccess rt.1 then
      (⟨200, true, "Wake-on-LAN packet sent successfully", some rt.1⟩, rt.2)
    else
      (⟨500, false, "Failed to send Wake-on-LAN packet", some rt.1⟩, rt.2)

/-- The `POST /wakeup` handler of `src/index.js`: same missing-address
guard, then a bare `wol.wake(mac, cb)` (library defaults
`255.255.255.255:9`). -/
def indexWakeupHandler (serverMac macAddress : Option String)
    (libBeh : Option String) : Response × List Ev :=
  match strOr macAddress serverMac with
  | none => (⟨400, false, "MAC address not provided", none⟩, [])
  | some mac =>
    match libBeh with
    | some m =>
      (⟨500, false, "Error sending Wake-on-LAN packet: " ++ m, none⟩,
       [Ev.libWake mac "255.255.255.255" 9])
    | none =>
      (⟨200, true, "Wake-on-LAN packet sent successfully", none⟩,
       [Ev.libWake mac "255.255.255.255" 9])

end WolService

namespace WolService

/- ## Concrete sample fixtures (used by the closed instantiations) -/

/-- A well-formed sample hardware address. -/
def sampleMac : String := "00:11:22:33:44:55"

/-- A malformed sample hardware address. -/
def badMac : String := "not-a-mac"

/-- A transport behaviour where bind and send both succeed. -/
def okBeh : TransportBeh := ⟨true, "", true, ""⟩

/-- A transport behaviour where the bind fails. -/
def bindFailBeh : TransportBeh := ⟨false, "bind EADDRNOTAVAIL", true, ""⟩

/-- An options object with every field absent. -/
def emptyOptions : WakeOptions := ⟨none, none, none⟩

/-- A sample interface table: one qualifying IPv4 interface, one IPv6
entry and one internal loopback entry. -/
def sampleNis : List (String × List IfaceEntry) :=
  [("eth0", [⟨"192.168.1.5", "IPv4", false⟩, ⟨"fe80::1", "IPv6", false⟩]),
   ("lo", [⟨"127.0.0.1", "IPv4", true⟩])]

/-- A sample request body: explicit MAC, no method restriction, single
custom attempt. -/
def sampleBody : ReqBody := ⟨some sampleMac, none, none, none, false, none⟩

/-- A sample environment with neither variable configured. -/
def emptyEnv : Env := ⟨none, none⟩

/-- A sample aggregated report: library failed, single custom attempt
succeeded. -/
def sampleReport : WakeResults :=
  ⟨some ⟨false, some "lib down"⟩, some (CustomOutcome.single ⟨true, none⟩)⟩

end WolService

namespace WolService

/- ## Lemmas for the sequential-store characterisation of the packet loops -/

theorem writeList_append (ps qs : List (Nat × Nat)) (b : List Nat) :
    writeList (ps ++ qs) b = writeList qs (writeList ps b) := by
  simp [writeList, List.foldl_append]

theorem writeList_seqPairs_cons (vs : List Nat) :
    ∀ (k : Nat) (x : Nat) (b : List Nat),
      writeList (seqPairs (k + 1) vs) (x :: b) = x :: writeList (seqPairs k vs) b := by
  induction vs with
  | nil => intro k x b; rfl
  | cons v vs ih =>
    intro k x b
    show writeList (seqPairs (k + 2) vs) ((x :: b).set (k + 1) v) = _
    have h1 : (x :: b).set (k + 1) v = x :: b.set k v := rfl
    rw [h1, ih (k + 1) x (b.set k v)]
    rfl

theorem writeList_seqPairs (b : List Nat) :
    ∀ (k : Nat) (vs : List Nat), k + vs.length ≤ b.length →
      writeList (seqPairs k vs) b = b.take k ++ vs ++ b.drop (k + vs.length) := by
  induction b with
  | nil =>
    intro k vs h
    simp only [List.length_nil, Nat.le_zero] at h
    have hk : k = 0 := by omega
    have hv : vs = [] := List.length_eq_zero.mp (by omega)
    subst hk; subst hv
    rfl
  | cons a b ih =>
    intro k vs h
    cases k with
    | zero =>
      cases vs with
      | nil => simp [writeList, seqPairs]
      | cons v vs =>
        show writeList (seqPairs 1 vs) ((a :: b).set 0 v) = _
        have h0 : (a :: b).set 0 v = v :: b := rfl
        have hlen : 0 + vs.length ≤ b.length := by
          simp only [List.length_cons] at h; omega
        rw [h0, writeList_seqPairs_cons vs 0 v b, ih 0 vs hlen]
        simp
    | succ k =>
      have hlen : k + vs.length ≤ b.length := by
        simp only [List.length_cons] at h; omega
      rw [writeList_seqPairs_cons vs k a b, ih k vs hlen]
      simp only [List.take_succ_cons, List.drop_succ_cons, List.cons_append]
      have h2 : k + 1 + vs.length = (k + vs.length) + 1 := by omega
      rw [h2, List.drop_succ_cons]

theorem seqPairs_append (xs : List Nat) :
    ∀ (ys : List Nat) (k : Nat),
      seqPairs k (xs ++ ys) = seqPairs k xs ++ seqPairs (k + xs.length) ys := by
  induction xs with
  | nil => intro ys k; simp [seqPairs]
  | cons x xs ih =>
    intro ys k
    show (k, x) :: seqPairs (k + 1) (xs ++ ys) = _
    rw [ih ys (k + 1)]
    have h1 : k + 1 + xs.length = k + (xs.length + 1) := by omega
    simp [seqPairs, h1]

theorem seqPairs_flatten_replicate (vs : List Nat) :
    ∀ (n k : Nat),
      seqPairs k (List.flatten (List.replicate n vs)) =
        List.flatten ((List.range n).map (fun i => seqPairs (k + i * vs.length) vs)) := by
  intro n
  induction n with
  | zero => intro k; rfl
  | succ n ih =>
    intro k
    rw [List.replicate_succ, List.flatten_cons, seqPairs_append, ih (k + vs.length),
      List.range_succ_eq_map]
    simp only [List.map_cons, List.map_map, List.flatten_cons, Nat.zero_mul, Nat.add_zero]
    congr 1
    congr 1
    apply List.map_congr_left
    intro i _
    simp only [Function.comp_apply]
    congr 1
    have h2 : Nat.succ i * vs.length = i * vs.length + vs.length := Nat.succ_mul i vs.length
    omega

theorem length_flatten_replicate (vs : List Nat) :
    ∀ (n : Nat), (List.flatten (List.replicate n vs)).length = n * vs.length := by
  intro n
  induction n with
  | zero => simp
  | succ n ih =>
    rw [List.replicate_succ, List.flatten_cons, List.length_append, ih]
    ring

theorem ff_fold_eq (b : List Nat) :
    (List.range 6).foldl (fun bb i => bb.set i 0xFF) b =
      writeList (seqPairs 0 (List.replicate 6 0xFF)) b := rfl

theorem mac_row_fold_eq (cs : List Char) (i : Nat) (b : List Nat) :
    (List.range 6).foldl (fun b2 j => b2.set (6 + i * 6 + j) (macByte cs j)) b =
      writeList (seqPairs (6 + i * 6) (macBytes cs)) b := rfl

theorem mac_fold_eq (cs : List Char) (b : List Nat) :
    (List.range 16).foldl
      (fun bb i => (List.range 6).foldl
        (fun b2 j => b2.set (6 + i * 6 + j) (macByte cs j)) bb) b =
      writeList (seqPairs 6 (List.flatten (List.replicate 16 (macBytes cs)))) b := by
  have hmb : (macBytes cs).length = 6 := by simp [macBytes]
  rw [seqPairs_flatten_replicate, hmb]
  have h : ∀ (rows : List Nat) (b : List Nat),
      writeList (List.flatten (rows.map (fun i => seqPairs (6 + i * 6) (macBytes cs)))) b =
        rows.foldl
          (fun bb i => (List.range 6).foldl
            (fun b2 j => b2.set (6 + i * 6 + j) (macByte cs j)) bb) b := by
    intro rows
    induction rows with
    | nil => intro b; rfl
    | cons r rows ih =>
      intro b
      simp only [List.map_cons, List.flatten_cons, List.foldl_cons]
      rw [writeList_append, ih]
      rw [mac_row_fold_eq]
  rw [h (List.range 16) b]

/-- The net effect of the buffer-filling loops of `sendCustomMagicPacket`:
six `0xFF` bytes followed by the six decoded address bytes repeated
sixteen times. -/
theorem buildPacket_eq (cs : List Char) :
    buildPacket cs =
      List.replicate 6 0xFF ++ List.flatten (List.replicate 16 (macBytes cs)) := by
  have hmb : (macBytes cs).length = 6 := by simp [macBytes]
  have hfl : (List.flatten (List.replicate 16 (macBytes cs))).length = 96 := by
    rw [length_flatten_replicate, hmb]
  show (List.range 16).foldl
      (fun b i => (List.range 6).foldl
        (fun b2 j => b2.set (6 + i * 6 + j) (macByte cs j)) b)
      ((List.range 6).foldl (fun b i => b.set i 0xFF) (List.replicate 102 0)) = _
  rw [ff_fold_eq, mac_fold_eq]
  rw [writeList_seqPairs (List.replicate 102 0) 0 (List.replicate 6 0xFF) (by simp)]
  simp only [List.take_zero, List.drop_replicate, List.nil_append]
  norm_num
  rw [writeList_seqPairs _ 6 _ (by rw [hfl]; simp)]
  rw [hfl]
  rw [@List.take_left' Nat (List.replicate 6 0xFF) (List.replicate 96 0) 6 (by simp)]
  rw [List.drop_eq_nil_of_le (by simp)]
  simp

/- ## C1 — magic-packet structure -/

/-- C1: for every hardware-address string that, after stripping `':'` and
`'-'` separators, consists of exactly 12 hexadecimal digits (any case),
the magic packet built by `sendCustomMagicPacket` is a 102-byte buffer
whose first 6 bytes are all `0xFF` and whose bytes 6..101 are the 6
decoded address bytes repeated exactly 16 times. -/
theorem magic_packet_structure (s : String)
    (h : validMac (stripSep s.toList) = true) :
    (buildPacket (stripSep s.toList)).length = 102 ∧
    (buildPacket (stripSep s.toList)).take 6 = List.replicate 6 0xFF ∧
    (buildPacket (stripSep s.toList)).drop 6 =
      List.flatten (List.replicate 16 (macBytes (stripSep s.toList))) := by
  have he := buildPacket_eq (stripSep s.toList)
  have hfl :
      (List.flatten (List.replicate 16 (macBytes (stripSep s.toList)))).length = 96 := by
    rw [length_flatten_replicate]; simp [macBytes]
  refine ⟨?_, ?_, ?_⟩
  · rw [he, List.length_append, hfl]; simp
  · rw [he, @List.take_left' Nat (List.replicate 6 0xFF) _ 6 (by simp)]
  · rw [he, @List.drop_left' Nat (List.replicate 6 0xFF) _ 6 (by simp)]

/-- Witness for C1 at the concrete input `"00:11:22:33:44:55"`. -/
theorem magic_packet_structure_witness :
    validMac (stripSep sampleMac.toList) = true ∧
    ((buildPacket (stripSep sampleMac.toList)).length = 102 ∧
     (buildPacket (stripSep sampleMac.toList)).take 6 = List.replicate 6 0xFF ∧
     (buildPacket (stripSep sampleMac.toList)).drop 6 =
       List.flatten (List.replicate 16 (macBytes (stripSep sampleMac.toList)))) :=
  ⟨by decide, magic_packet_structure sampleMac (by decide)⟩

/- ## C4 — broadcast enabled before the datagram goes out -/

/-- C4: in every execution of a single send attempt, broadcast
transmission is enabled (`setBroadcast(true)`) before the magic packet
is sent; the datagram never goes out on a socket whose broadcast option
is still disabled.  (The `socket.send` call itself is issued while the
bind is still pending, so the datagram is queued and transmitted only
after the `listening` callback has run `setBroadcast(true)`; see the
module comment.) -/
theorem broadcast_enabled_before_send (mac : String) (options : WakeOptions)
    (beh : TransportBeh) :
    sendsWithBroadcastEnabled false (sendCustomMagicPacket mac options beh).1 = true := by
  unfold sendCustomMagicPacket
  by_cases hv : validMac (stripSep mac.data)
  · by_cases hb : beh.bindOk
    · simp [hv, hb, sendsWithBroadcastEnabled]
    · simp [hv, hb, sendsWithBroadcastEnabled]
  · simp [hv, sendsWithBroadcastEnabled]

/- ## C8 — socket closed on every exit path -/

/-- C8: every UDP socket opened for a send attempt is closed on every
exit path of that attempt — successful send, invalid-address rejection,
bind failure and send failure all close the socket, and the close
happens before the attempt result is delivered to the awaiting caller
(promise delivery being a microtask that runs after the synchronous
`socket.close()`). -/
theorem socket_closed_on_every_path (mac : String) (options : WakeOptions)
    (beh : TransportBeh) :
    Ev.close ∈ (sendCustomMagicPacket mac options beh).1 ∧
    closedBeforeDeliver false (sendCustomMagicPacket mac options beh).1 = true := by
  unfold sendCustomMagicPacket
  by_cases hv : validMac (stripSep mac.data)
  · by_cases hb : beh.bindOk
    · exact ⟨by simp [hv, hb], by simp [hv, hb, closedBeforeDeliver]⟩
    · exact ⟨by simp [hv, hb], by simp [hv, hb, closedBeforeDeliver]⟩
  · exact ⟨by simp [hv], by simp [hv, closedBeforeDeliver]⟩

/- ## C9 — per-attempt options override only the interface binder -/

/-- C9: for every qualifying interface of the multi-interface dispatch,
the per-attempt options equal the base options with only the interface
field replaced by that interface's address; the destination address and
destination port are unchanged, both as raw fields and after the
defaulting inside the send attempt. -/
theorem per_interface_options_frame (options : WakeOptions) (addr : String) :
    (interfaceOptions options addr).address = options.address ∧
    (interfaceOptions options addr).port = options.port ∧
    (interfaceOptions options addr).iface = some addr ∧
    (resolveOptions (interfaceOptions options addr)).address =
      (resolveOptions options).address ∧
    (resolveOptions (interfaceOptions options addr)).port =
      (resolveOptions options).port :=
  ⟨rfl, rfl, rfl, rfl, rfl⟩

/- ## C3 — invalid address: rejected, nothing sent, but the socket is
     created (and its bind initiated) before the validation check -/

/-- Counterexample to C3 as stated: at the concrete malformed input
`"not-a-mac"`, the attempt is rejected with the invalid-address error,
yet the socket creation (trace position 0) and the bind initiation
(position 1) happen before the validation check (position 2) — the
claim that no socket is created or bound before the validation check is
false on this code. -/
theorem invalid_address_socket_created_first :
    (sendCustomMagicPacket badMac emptyOptions okBeh).2 =
      SendOutcome.rejected "Invalid MAC address format" ∧
    (sendCustomMagicPacket badMac emptyOptions okBeh).1.get? 0 = some Ev.create ∧
    (sendCustomMagicPacket badMac emptyOptions okBeh).1.get? 1 =
      some (Ev.bindStart none) ∧
    (sendCustomMagicPacket badMac emptyOptions okBeh).1.get? 2 =
      some (Ev.validate false) := by
  refine ⟨by decide, by decide, by decide, by decide⟩

/-- C3 as amended: for every input that is not exactly 12 hexadecimal
digits after separator stripping, the attempt fails with the
invalid-address error and no packet is ever built or sent (no build, no
`socket.send` call, no datagram), and the socket is closed — but the
socket is created and its bind initiated before the validation check
runs. -/
theorem invalid_address_no_send (mac : String) (options : WakeOptions)
    (beh : TransportBeh) (h : validMac (stripSep mac.toList) = false) :
    (sendCustomMagicPacket mac options beh).2 =
      SendOutcome.rejected "Invalid MAC address format" ∧
    (∀ pkt p a, Ev.send pkt p a ∉ (sendCustomMagicPacket mac options beh).1) ∧
    (∀ pkt p a, Ev.sendCall pkt p a ∉ (sendCustomMagicPacket mac options beh).1) ∧
    (∀ pkt, Ev.build pkt ∉ (sendCustomMagicPacket mac options beh).1) ∧
    Ev.close ∈ (sendCustomMagicPacket mac options beh).1 := by
  have h2 : validMac (stripSep mac.data) = false := h
  unfold sendCustomMagicPacket
  simp [h2]

/-- Witness for the amended C3 at the concrete input `"not-a-mac"`. -/
theorem invalid_address_no_send_witness :
    validMac (stripSep badMac.toList) = false ∧
    ((sendCustomMagicPacket badMac emptyOptions okBeh).2 =
       SendOutcome.rejected "Invalid MAC address format" ∧
     (∀ pkt p a, Ev.send pkt p a ∉ (sendCustomMagicPacket badMac emptyOptions okBeh).1) ∧
     (∀ pkt p a, Ev.sendCall pkt p a ∉ (sendCustomMagicPacket badMac emptyOptions okBeh).1) ∧
     (∀ pkt, Ev.build pkt ∉ (sendCustomMagicPacket badMac emptyOptions okBeh).1) ∧
     Ev.close ∈ (sendCustomMagicPacket badMac emptyOptions okBeh).1) :=
  ⟨by decide, invalid_address_no_send badMac emptyOptions okBeh (by decide)⟩

end WolService

namespace WolService

/- ## C5 — missing address rejected before any work -/

/-- C5: for every `/wakeup` request in which no `macAddress` is supplied
and no default `SERVER_MAC` is configured, both handlers fail with the
missing-address error (HTTP 400, `MAC address not provided`) and the
event trace is empty: no packet is built, no socket is created or bound,
and no send attempt (library or custom) is made. -/
theorem missing_address_rejected_before_io (env : Env) (body : ReqBody)
    (nis : List (String × List IfaceEntry)) (libBeh : Option String)
    (singleBeh : TransportBeh) (multiBeh : Nat → TransportBeh)
    (libBeh2 : Option String)
    (h1 : body.macAddress = none) (h2 : env.serverMac = none) :
    wakeupHandler env body nis libBeh singleBeh multiBeh =
      (⟨400, false, "MAC address not provided", none⟩, []) ∧
    indexWakeupHandler env.serverMac body.macAddress libBeh2 =
      (⟨400, false, "MAC address not provided", none⟩, []) := by
  constructor
  · unfold wakeupHandler
    rw [h1, h2]
    rfl
  · unfold indexWakeupHandler
    rw [h1, h2]
    rfl

/-- Witness for C5: a request without `macAddress` against an
environment without `SERVER_MAC`. -/
theorem missing_address_rejected_before_io_witness :
    (⟨none, none, none, none, false, none⟩ : ReqBody).macAddress = none ∧
    emptyEnv.serverMac = none ∧
    (wakeupHandler emptyEnv ⟨none, none, none, none, false, none⟩ sampleNis none
        okBeh (fun _ => okBeh) =
      (⟨400, false, "MAC address not provided", none⟩, []) ∧
     indexWakeupHandler emptyEnv.serverMac
        (⟨none, none, none, none, false, none⟩ : ReqBody).macAddress none =
      (⟨400, false, "MAC address not provided", none⟩, [])) :=
  ⟨rfl, rfl,
   missing_address_rejected_before_io emptyEnv ⟨none, none, none, none, false, none⟩
     sampleNis none okBeh (fun _ => okBeh) none rfl rfl⟩

/- ## Helper lemmas about the dispatch loop -/

theorem attemptResultFor_fields (mac : String) (options : WakeOptions)
    (e : String × IfaceEntry) (beh : TransportBeh) :
    (attemptResultFor mac options e beh).iface = e.1 ∧
    (attemptResultFor mac options e beh).address = e.2.address := by
  cases h : (sendCustomMagicPacket mac (interfaceOptions options e.2.address) beh).2 <;>
    simp [attemptResultFor, h]

theorem sendToAllInterfacesAux_length (mac : String) (options : WakeOptions)
    (beh : Nat → TransportBeh) :
    ∀ (q : List (String × IfaceEntry)) (k : Nat),
      (sendToAllInterfacesAux mac options beh k q).1.length = q.length := by
  intro q
  induction q with
  | nil => intro k; rfl
  | cons e es ih =>
    intro k
    simp [sendToAllInterfacesAux, ih (k + 1)]

theorem sendToAllInterfacesAux_map (mac : String) (options : WakeOptions)
    (beh : Nat → TransportBeh) :
    ∀ (q : List (String × IfaceEntry)) (k : Nat),
      (sendToAllInterfacesAux mac options beh k q).1.map (fun r => (r.iface, r.address)) =
        q.map (fun e => (e.1, e.2.address)) := by
  intro q
  induction q with
  | nil => intro k; rfl
  | cons e es ih =>
    intro k
    simp only [sendToAllInterfacesAux, List.map_cons]
    rw [ih (k + 1)]
    have hf := attemptResultFor_fields mac options e (beh k)
    rw [hf.1, hf.2]

theorem sendToAllInterfacesAux_get? (mac : String) (options : WakeOptions)
    (beh : Nat → TransportBeh) :
    ∀ (q : List (String × IfaceEntry)) (k j : Nat),
      (sendToAllInterfacesAux mac options beh k q).1.get? j =
        (q.get? j).map (fun e => attemptResultFor mac options e (beh (k + j))) := by
  intro q
  induction q with
  | nil => intro k j; simp [sendToAllInterfacesAux]
  | cons e es ih =>
    intro k j
    cases j with
    | zero => simp [sendToAllInterfacesAux]
    | succ j =>
      have harith : k + 1 + j = k + (j + 1) := by omega
      simp only [sendToAllInterfacesAux, List.get?_cons_succ]
      rw [ih (k + 1) j, harith]

/- ## C6 — the dispatch attempts exactly the qualifying interfaces -/

/-- C6: the multi-interface dispatch attempts a send exactly for those
enumerated interface entries whose address family is `IPv4` and whose
internal flag is false (one report entry per qualifying entry, carrying
its name and address, in order), and when zero interfaces qualify it
returns an empty result list rather than an error. -/
theorem dispatch_exactly_qualifying (mac : String) (options : WakeOptions)
    (nis : List (String × List IfaceEntry)) (beh : Nat → TransportBeh) :
    ((sendToAllInterfaces mac options nis beh).map (fun r => (r.iface, r.address)) =
      (qualifyingInterfaces nis).map (fun e => (e.1, e.2.address))) ∧
    (∀ (name : String) (e : IfaceEntry),
      (name, e) ∈ qualifyingInterfaces nis ↔
        ((∃ l, (name, l) ∈ nis ∧ e ∈ l) ∧ e.family = "IPv4" ∧ e.internal = false)) ∧
    (qualifyingInterfaces nis = [] → sendToAllInterfaces mac options nis beh = []) := by
  refine ⟨sendToAllInterfacesAux_map mac options beh (qualifyingInterfaces nis) 0, ?_, ?_⟩
  · intro name e
    simp only [qualifyingInterfaces, List.mem_flatMap, List.mem_map, List.mem_filter,
      Bool.and_eq_true, beq_iff_eq, Bool.not_eq_true', Prod.mk.injEq]
    constructor
    · rintro ⟨⟨pname, pl⟩, hp, i, ⟨hi, hfam, hint⟩, hn, rfl⟩
      subst hn
      exact ⟨⟨pl, hp, hi⟩, hfam, hint⟩
    · rintro ⟨⟨l, hl, hel⟩, hfam, hint⟩
      exact ⟨(name, l), hl, e, ⟨hel, hfam, hint⟩, rfl, rfl⟩
  · intro hq
    unfold sendToAllInterfaces
    rw [hq]
    rfl

/-- Witness for C6: the sample interface table has exactly one
qualifying entry (`eth0`, `192.168.1.5`). -/
theorem dispatch_exactly_qualifying_witness :
    ((sendToAllInterfaces sampleMac emptyOptions sampleNis (fun _ => okBeh)).map
        (fun r => (r.iface, r.address)) =
      (qualifyingInterfaces sampleNis).map (fun e => (e.1, e.2.address))) ∧
    (∀ (name : String) (e : IfaceEntry),
      (name, e) ∈ qualifyingInterfaces sampleNis ↔
        ((∃ l, (name, l) ∈ sampleNis ∧ e ∈ l) ∧ e.family = "IPv4" ∧ e.internal = false)) ∧
    (qualifyingInterfaces sampleNis = [] →
      sendToAllInterfaces sampleMac emptyOptions sampleNis (fun _ => okBeh) = []) :=
  dispatch_exactly_qualifying sampleMac emptyOptions sampleNis (fun _ => okBeh)

/- ## C7 — transport failures are isolated to their own attempt -/

/-- C7: in a multi-interface dispatch every qualifying interface yields
exactly one report entry; entry `j` is fully determined by interface `j`
and its own transport behaviour (so a bind or send failure of one
attempt can never change or remove a sibling entry), and when attempt
`j` is rejected its entry carries `success = false` together with the
error message, rather than escaping as a fault. -/
theorem transport_error_isolated (mac : String) (options : WakeOptions)
    (nis : List (String × List IfaceEntry)) (beh : Nat → TransportBeh)
    (j : Nat) (hj : j < (qualifyingInterfaces nis).length) :
    (sendToAllInterfaces mac options nis beh).length =
      (qualifyingInterfaces nis).length ∧
    (sendToAllInterfaces mac options nis beh).get? j =
      some (attemptResultFor mac options ((qualifyingInterfaces nis).get ⟨j, hj⟩) (beh j)) ∧
    (∀ m, (sendCustomMagicPacket mac
        (interfaceOptions options ((qualifyingInterfaces nis).get ⟨j, hj⟩).2.address)
        (beh j)).2 = SendOutcome.rejected m →
      (sendToAllInterfaces mac options nis beh).get? j =
        some ⟨((qualifyingInterfaces nis).get ⟨j, hj⟩).1,
          ((qualifyingInterfaces nis).get ⟨j, hj⟩).2.address, false, some m⟩) := by
  have hmain : (sendToAllInterfaces mac options nis beh).get? j =
      some (attemptResultFor mac options ((qualifyingInterfaces nis).get ⟨j, hj⟩) (beh j)) := by
    unfold sendToAllInterfaces
    rw [sendToAllInterfacesAux_get? mac options beh (qualifyingInterfaces nis) 0 j]
    rw [List.get?_eq_get hj]
    simp
  refine ⟨sendToAllInterfacesAux_length mac options beh (qualifyingInterfaces nis) 0,
    hmain, ?_⟩
  intro m hm
  rw [hmain]
  unfold attemptResultFor
  rw [hm]

/-- Witness for C7: one qualifying interface whose bind fails; its entry
reports the failure with the bind error message. -/
theorem transport_error_isolated_witness :
    0 < (qualifyingInterfaces sampleNis).length ∧
    ((sendToAllInterfaces sampleMac emptyOptions sampleNis (fun _ => bindFailBeh)).length =
      (qualifyingInterfaces sampleNis).length ∧
    (sendToAllInterfaces sampleMac emptyOptions sampleNis (fun _ => bindFailBeh)).get? 0 =
      some (attemptResultFor sampleMac emptyOptions
        ((qualifyingInterfaces sampleNis).get ⟨0, by decide⟩) bindFailBeh) ∧
    (∀ m, (sendCustomMagicPacket sampleMac
        (interfaceOptions emptyOptions
          ((qualifyingInterfaces sampleNis).get ⟨0, by decide⟩).2.address)
        bindFailBeh).2 = SendOutcome.rejected m →
      (sendToAllInterfaces sampleMac emptyOptions sampleNis (fun _ => bindFailBeh)).get? 0 =
        some ⟨((qualifyingInterfaces sampleNis).get ⟨0, by decide⟩).1,
          ((qualifyingInterfaces sampleNis).get ⟨0, by decide⟩).2.address, false, some m⟩)) :=
  ⟨by decide, transport_error_isolated sampleMac emptyOptions sampleNis (fun _ => bindFailBeh)
    0 (by decide)⟩

end WolService

namespace WolService


/- ## C2 — aggregated success flag -/

theorem anySuccess_iff (r : WakeResults) :
    anySuccess r = true ↔
      ((∃ l, r.library = some l ∧ l.success = true) ∨
       (∃ s, r.custom = some (CustomOutcome.single s) ∧ s.success = true) ∨
       (∃ rs a, r.custom = some (CustomOutcome.multi rs) ∧ a ∈ rs ∧ a.success = true)) := by
  obtain ⟨lib, cust⟩ := r
  cases lib with
  | none =>
    cases cust with
    | none => simp [anySuccess]
    | some c =>
      cases c with
      | single s => simp [anySuccess]
      | multi rs => simp [anySuccess, List.any_eq_true]
  | some l =>
    cases cust with
    | none => simp [anySuccess]
    | some c =>
      cases c with
      | single s => simp [anySuccess]
      | multi rs => simp [anySuccess, List.any_eq_true]

theorem wakeupHandler_eq_none (env : Env) (body : ReqBody)
    (nis : List (String × List IfaceEntry)) (libBeh : Option String)
    (singleBeh : TransportBeh) (multiBeh : Nat → TransportBeh)
    (hm : strOr body.macAddress env.serverMac = none) :
    wakeupHandler env body nis libBeh singleBeh multiBeh =
      (⟨400, false, "MAC address not provided", none⟩, []) := by
  unfold wakeupHandler
  rw [hm]

theorem wakeupHandler_eq_some (env : Env) (body : ReqBody)
    (nis : List (String × List IfaceEntry)) (libBeh : Option String)
    (singleBeh : TransportBeh) (multiBeh : Nat → TransportBeh) (mac : String)
    (hm : strOr body.macAddress env.serverMac = some mac) :
    wakeupHandler env body nis libBeh singleBeh multiBeh =
      (if anySuccess (wakeupResults env body nis libBeh singleBeh multiBeh mac).1 then
        (⟨200, true, "Wake-on-LAN packet sent successfully",
          some (wakeupResults env body nis libBeh singleBeh multiBeh mac).1⟩,
         (wakeupResults env body nis libBeh singleBeh multiBeh mac).2)
      else
        (⟨500, false, "Failed to send Wake-on-LAN packet",
          some (wakeupResults env body nis libBeh singleBeh multiBeh mac).1⟩,
         (wakeupResults env body nis libBeh singleBeh multiBeh mac).2)) := by
  unfold wakeupHandler
  rw [hm]

theorem wakeupHandler_details_success (env : Env) (body : ReqBody)
    (nis : List (String × List IfaceEntry)) (libBeh : Option String)
    (singleBeh : TransportBeh) (multiBeh : Nat → TransportBeh) (r : WakeResults)
    (h : (wakeupHandler env body nis libBeh singleBeh multiBeh).1.details = some r) :
    (wakeupHandler env body nis libBeh singleBeh multiBeh).1.success = anySuccess r := by
  cases hm : strOr body.macAddress env.serverMac with
  | none =>
    rw [wakeupHandler_eq_none env body nis libBeh singleBeh multiBeh hm] at h
    simp at h
  | some mac =>
    rw [wakeupHandler_eq_some env body nis libBeh singleBeh multiBeh mac hm] at h ⊢
    by_cases hc :
        anySuccess (wakeupResults env body nis libBeh singleBeh multiBeh mac).1 = true
    · rw [if_pos hc] at h ⊢
      simp only [Option.some.injEq] at h
      rw [← h]
      exact hc.symm
    · rw [if_neg hc] at h ⊢
      simp only [Option.some.injEq] at h
      rw [← h]
      exact ((Bool.not_eq_true _).mp hc).symm

/-- C2: for every wake report produced by the `/wakeup` handler, the
overall success flag is true if and only if at least one per-attempt
result it aggregates — the library attempt, the single custom attempt,
or any per-interface custom attempt — is a success. -/
theorem aggregated_success_iff (env : Env) (body : ReqBody)
    (nis : List (String × List IfaceEntry)) (libBeh : Option String)
    (singleBeh : TransportBeh) (multiBeh : Nat → TransportBeh) (r : WakeResults)
    (h : (wakeupHandler env body nis libBeh singleBeh multiBeh).1.details = some r) :
    ((wakeupHandler env body nis libBeh singleBeh multiBeh).1.success = true ↔
      ((∃ l, r.library = some l ∧ l.success = true) ∨
       (∃ s, r.custom = some (CustomOutcome.single s) ∧ s.success = true) ∨
       (∃ rs a, r.custom = some (CustomOutcome.multi rs) ∧ a ∈ rs ∧ a.success = true))) := by
  rw [wakeupHandler_details_success env body nis libBeh singleBeh multiBeh r h]
  exact anySuccess_iff r

/-- Witness for C2: library fails, the single custom attempt succeeds,
and the response carries success `true`. -/
theorem aggregated_success_iff_witness :
    (wakeupHandler emptyEnv sampleBody sampleNis (some "lib down") okBeh
        (fun _ => okBeh)).1.details = some sampleReport ∧
    ((wakeupHandler emptyEnv sampleBody sampleNis (some "lib down") okBeh
        (fun _ => okBeh)).1.success = true ↔
      ((∃ l, sampleReport.library = some l ∧ l.success = true) ∨
       (∃ s, sampleReport.custom = some (CustomOutcome.single s) ∧ s.success = true) ∨
       (∃ rs a, sampleReport.custom = some (CustomOutcome.multi rs) ∧ a ∈ rs ∧
         a.success = true))) :=
  ⟨by decide, aggregated_success_iff emptyEnv sampleBody sampleNis (some "lib down") okBeh
    (fun _ => okBeh) sampleReport (by decide)⟩

end WolService

namespace WolService

/- ## C10 — destination address comes only from the environment -/

theorem attempt_send_addr (mac : String) (o : WakeOptions) (beh : TransportBeh)
    (pkt : List Nat) (p : Nat) (a : String)
    (h : Ev.send pkt p a ∈ (sendCustomMagicPacket mac o beh).1) :
    a = (resolveOptions o).address := by
  unfold sendCustomMagicPacket at h
  by_cases hv : validMac (stripSep mac.data)
  · by_cases hb : beh.bindOk
    · simp [hv, hb] at h
      exact h.2.2
    · simp [hv, hb] at h
  · simp [hv] at h

theorem attempt_sendCall_addr (mac : String) (o : WakeOptions) (beh : TransportBeh)
    (pkt : List Nat) (p : Nat) (a : String)
    (h : Ev.sendCall pkt p a ∈ (sendCustomMagicPacket mac o beh).1) :
    a = (resolveOptions o).address := by
  unfold sendCustomMagicPacket at h
  by_cases hv : validMac (stripSep mac.data)
  · by_cases hb : beh.bindOk
    · simp [hv, hb] at h
      exact h.2.2
    · simp [hv, hb] at h
      exact h.2.2
  · simp [hv] at h

theorem attempt_no_libWake (mac : String) (o : WakeOptions) (beh : TransportBeh)
    (m a : String) (p : Nat) :
    Ev.libWake m a p ∉ (sendCustomMagicPacket mac o beh).1 := by
  unfold sendCustomMagicPacket
  by_cases hv : validMac (stripSep mac.data)
  · by_cases hb : beh.bindOk
    · simp [hv, hb]
    · simp [hv, hb]
  · simp [hv]

theorem auxTrace_send_addr (mac : String) (options : WakeOptions)
    (beh : Nat → TransportBeh) :
    ∀ (q : List (String × IfaceEntry)) (k : Nat) (pkt : List Nat) (p : Nat) (a : String),
      Ev.send pkt p a ∈ (sendToAllInterfacesAux mac options beh k q).2 →
        a = (resolveOptions options).address := by
  intro q
  induction q with
  | nil => intro k pkt p a h; simp [sendToAllInterfacesAux] at h
  | cons e es ih =>
    intro k pkt p a h
    simp only [sendToAllInterfacesAux, List.mem_append] at h
    rcases h with h | h
    · exact attempt_send_addr mac (interfaceOptions options e.2.address) (beh k) pkt p a h
    · exact ih (k + 1) pkt p a h

theorem auxTrace_sendCall_addr (mac : String) (options : WakeOptions)
    (beh : Nat → TransportBeh) :
    ∀ (q : List (String × IfaceEntry)) (k : Nat) (pkt : List Nat) (p : Nat) (a : String),
      Ev.sendCall pkt p a ∈ (sendToAllInterfacesAux mac options beh k q).2 →
        a = (resolveOptions options).address := by
  intro q
  induction q with
  | nil => intro k pkt p a h; simp [sendToAllInterfacesAux] at h
  | cons e es ih =>
    intro k pkt p a h
    simp only [sendToAllInterfacesAux, List.mem_append] at h
    rcases h with h | h
    · exact attempt_sendCall_addr mac (interfaceOptions options e.2.address) (beh k) pkt p a h
    · exact ih (k + 1) pkt p a h

theorem auxTrace_no_libWake (mac : String) (options : WakeOptions)
    (beh : Nat → TransportBeh) :
    ∀ (q : List (String × IfaceEntry)) (k : Nat) (m a : String) (p : Nat),
      Ev.libWake m a p ∉ (sendToAllInterfacesAux mac options beh k q).2 := by
  intro q
  induction q with
  | nil => intro k m a p h; simp [sendToAllInterfacesAux] at h
  | cons e es ih =>
    intro k m a p h
    simp only [sendToAllInterfacesAux, List.mem_append] at h
    rcases h with h | h
    · exact attempt_no_libWake mac (interfaceOptions options e.2.address) (beh k) m a p h
    · exact ih (k + 1) m a p h

theorem strOrD_isEmpty_false (x : Option String) (d : String)
    (hd : d.isEmpty = false) : (strOrD x d).isEmpty = false := by
  cases x with
  | none => exact hd
  | some s =>
    by_cases hs : s.isEmpty = true
    · simpa [strOrD, hs] using hd
    · simpa [strOrD, hs] using (Bool.not_eq_true _).mp hs


theorem handlerOptions_address (env : Env) (body : ReqBody) :
    (resolveOptions (handlerOptions env body)).address =
      strOrD env.wolBroadcastAddr "255.255.255.255" := by
  have h := strOrD_isEmpty_false env.wolBroadcastAddr "255.255.255.255" rfl
  show strOrD (some (strOrD env.wolBroadcastAddr "255.255.255.255")) "255.255.255.255" = _
  generalize hba : strOrD env.wolBroadcastAddr "255.255.255.255" = ba at h ⊢
  simp [strOrD, h]

theorem wakeupResults_trace (env : Env) (body : ReqBody)
    (nis : List (String × List IfaceEntry)) (libBeh : Option String)
    (singleBeh : TransportBeh) (multiBeh : Nat → TransportBeh) (mac : String) :
    (wakeupResults env body nis libBeh singleBeh multiBeh mac).2 =
      (if runLibrary body.method then
        [Ev.libWake mac (strOrD env.wolBroadcastAddr "255.255.255.255") (numOr body.port 9)]
       else []) ++
      (if runCustom body.method then
        (if body.useAllInterfaces then
          sendToAllInterfacesTrace mac (handlerOptions env body) nis multiBeh
         else (sendCustomMagicPacket mac (handlerOptions env body) singleBeh).1)
       else []) := by
  unfold wakeupResults
  by_cases hl : runLibrary body.method = true <;>
    by_cases hc : runCustom body.method = true <;>
      cases hua : body.useAllInterfaces <;>
        simp [hl, hc, hua]

theorem wakeupResults_send_addr (env : Env) (body : ReqBody)
    (nis : List (String × List IfaceEntry)) (libBeh : Option String)
    (singleBeh : TransportBeh) (multiBeh : Nat → TransportBeh) (mac : String)
    (pkt : List Nat) (p : Nat) (a : String)
    (h : Ev.send pkt p a ∈
      (wakeupResults env body nis libBeh singleBeh multiBeh mac).2) :
    a = strOrD env.wolBroadcastAddr "255.255.255.255" := by
  rw [wakeupResults_trace] at h
  rcases List.mem_append.mp h with h | h
  · by_cases hl : runLibrary body.method = true
    · rw [if_pos hl] at h
      simp at h
    · rw [if_neg hl] at h
      cases h
  · by_cases hc : runCustom body.method = true
    · rw [if_pos hc] at h
      cases hua : body.useAllInterfaces
      · rw [hua] at h
        rw [if_neg (by simp)] at h
        rw [attempt_send_addr mac (handlerOptions env body) singleBeh pkt p a h]
        exact handlerOptions_address env body
      · rw [hua] at h
        rw [if_pos rfl] at h
        rw [auxTrace_send_addr mac (handlerOptions env body) multiBeh
          (qualifyingInterfaces nis) 0 pkt p a h]
        exact handlerOptions_address env body
    · rw [if_neg hc] at h
      cases h

theorem wakeupResults_sendCall_addr (env : Env) (body : ReqBody)
    (nis : List (String × List IfaceEntry)) (libBeh : Option String)
    (singleBeh : TransportBeh) (multiBeh : Nat → TransportBeh) (mac : String)
    (pkt : List Nat) (p : Nat) (a : String)
    (h : Ev.sendCall pkt p a ∈
      (wakeupResults env body nis libBeh singleBeh multiBeh mac).2) :
    a = strOrD env.wolBroadcastAddr "255.255.255.255" := by
  rw [wakeupResults_trace] at h
  rcases List.mem_append.mp h with h | h
  · by_cases hl : runLibrary body.method = true
    · rw [if_pos hl] at h
      simp at h
    · rw [if_neg hl] at h
      cases h
  · by_cases hc : runCustom body.method = true
    · rw [if_pos hc] at h
      cases hua : body.useAllInterfaces
      · rw [hua] at h
        rw [if_neg (by simp)] at h
        rw [attempt_sendCall_addr mac (handlerOptions env body) singleBeh pkt p a h]
        exact handlerOptions_address env body
      · rw [hua] at h
        rw [if_pos rfl] at h
        rw [auxTrace_sendCall_addr mac (handlerOptions env body) multiBeh
          (qualifyingInterfaces nis) 0 pkt p a h]
        exact handlerOptions_address env body
    · rw [if_neg hc] at h
      cases h

theorem wakeupResults_libWake_addr (env : Env) (body : ReqBody)
    (nis : List (String × List IfaceEntry)) (libBeh : Option String)
    (singleBeh : TransportBeh) (multiBeh : Nat → TransportBeh) (mac : String)
    (m a : String) (p : Nat)
    (h : Ev.libWake m a p ∈
      (wakeupResults env body nis libBeh singleBeh multiBeh mac).2) :
    a = strOrD env.wolBroadcastAddr "255.255.255.255" := by
  rw [wakeupResults_trace] at h
  rcases List.mem_append.mp h with h | h
  · by_cases hl : runLibrary body.method = true
    · rw [if_pos hl] at h
      simp at h
      exact h.2.1
    · rw [if_neg hl] at h
      cases h
  · by_cases hc : runCustom body.method = true
    · rw [if_pos hc] at h
      cases hua : body.useAllInterfaces
      · rw [hua] at h
        rw [if_neg (by simp)] at h
        exact absurd h (attempt_no_libWake mac (handlerOptions env body) singleBeh m a p)
      · rw [hua] at h
        rw [if_pos rfl] at h
        exact absurd h (auxTrace_no_libWake mac (handlerOptions env body) multiBeh
          (qualifyingInterfaces nis) 0 m a p)
    · rw [if_neg hc] at h
      cases h

theorem wakeupHandler_trace_eq (env : Env) (body : ReqBody)
    (nis : List (String × List IfaceEntry)) (libBeh : Option String)
    (singleBeh : TransportBeh) (multiBeh : Nat → TransportBeh) (mac : String)
    (hm : strOr body.macAddress env.serverMac = some mac) :
    (wakeupHandler env body nis libBeh singleBeh multiBeh).2 =
      (wakeupResults env body nis libBeh singleBeh multiBeh mac).2 := by
  rw [wakeupHandler_eq_some env body nis libBeh singleBeh multiBeh mac hm]
  by_cases hc : anySuccess (wakeupResults env body nis libBeh singleBeh multiBeh mac).1 = true
  · rw [if_pos hc]
  · rw [if_neg hc]

/-- C10: for every `/wakeup` request the destination broadcast address
used for all send attempts (library call, custom `socket.send` call and
the transmitted datagrams) is determined solely by the
`WOL_BROADCAST_ADDR` environment variable, defaulting to
`255.255.255.255`; two requests that differ only in the `broadcastAddr`
field of the JSON body produce identical responses and identical
traces — the body cannot override the destination. -/
theorem broadcast_addr_from_env_only (env : Env) (body : ReqBody)
    (nis : List (String × List IfaceEntry)) (libBeh : Option String)
    (singleBeh : TransportBeh) (multiBeh : Nat → TransportBeh)
    (x y : Option String) :
    (wakeupHandler env ⟨body.macAddress, body.port, body.iface, body.method,
        body.useAllInterfaces, x⟩ nis libBeh singleBeh multiBeh =
      wakeupHandler env ⟨body.macAddress, body.port, body.iface, body.method,
        body.useAllInterfaces, y⟩ nis libBeh singleBeh multiBeh) ∧
    (∀ pkt p a, Ev.send pkt p a ∈
        (wakeupHandler env body nis libBeh singleBeh multiBeh).2 →
      a = strOrD env.wolBroadcastAddr "255.255.255.255") ∧
    (∀ pkt p a, Ev.sendCall pkt p a ∈
        (wakeupHandler env body nis libBeh singleBeh multiBeh).2 →
      a = strOrD env.wolBroadcastAddr "255.255.255.255") ∧
    (∀ m a p, Ev.libWake m a p ∈
        (wakeupHandler env body nis libBeh singleBeh multiBeh).2 →
      a = strOrD env.wolBroadcastAddr "255.255.255.255") := by
  refine ⟨rfl, ?_, ?_, ?_⟩
  · intro pkt p a h
    cases hm : strOr body.macAddress env.serverMac with
    | none =>
      rw [wakeupHandler_eq_none env body nis libBeh singleBeh multiBeh hm] at h
      cases h
    | some mac =>
      rw [wakeupHandler_trace_eq env body nis libBeh singleBeh multiBeh mac hm] at h
      exact wakeupResults_send_addr env body nis libBeh singleBeh multiBeh mac pkt p a h
  · intro pkt p a h
    cases hm : strOr body.macAddress env.serverMac with
    | none =>
      rw [wakeupHandler_eq_none env body nis libBeh singleBeh multiBeh hm] at h
      cases h
    | some mac =>
      rw [wakeupHandler_trace_eq env body nis libBeh singleBeh multiBeh mac hm] at h
      exact wakeupResults_sendCall_addr env body nis libBeh singleBeh multiBeh mac pkt p a h
  · intro m a p h
    cases hm : strOr body.macAddress env.serverMac with
    | none =>
      rw [wakeupHandler_eq_none env body nis libBeh singleBeh multiBeh hm] at h
      cases h
    | some mac =>
      rw [wakeupHandler_trace_eq env body nis libBeh singleBeh multiBeh mac hm] at h
      exact wakeupResults_libWake_addr env body nis libBeh singleBeh multiBeh mac m a p h

/-- Witness for C10: a concrete request whose trace contains a
transmitted datagram, whose destination is the environment default. -/
theorem broadcast_addr_from_env_only_witness :
    Ev.send (buildPacket (stripSep sampleMac.toList)) 9 "255.255.255.255" ∈
      (wakeupHandler emptyEnv sampleBody sampleNis none okBeh (fun _ => okBeh)).2 ∧
    "255.255.255.255" = strOrD emptyEnv.wolBroadcastAddr "255.255.255.255" :=
  ⟨by decide,
   (broadcast_addr_from_env_only emptyEnv sampleBody sampleNis none okBeh
      (fun _ => okBeh) none none).2.1
     (buildPacket (stripSep sampleMac.toList)) 9 "255.255.255.255" (by decide)⟩

end WolService
